import Mathlib

/-!
Shallow embedding of the mytoyota-dashboard core logic (app/fetcher.py,
app/database.py, app/main.py, app/credentials_manager.py) and proofs of the
spec's testable properties over it.

Modelling conventions:
* Python floats are modelled as exact rationals (ℚ); machine floating point
  rounding is outside the scope of this embedding.
* `datetime` instants are modelled as integers (seconds since an epoch);
  `astimezone(utc)` preserves the instant, so UTC conversion is the identity
  on the model.  Calendar dates are day numbers, `dayOf ts = ts.fdiv 86400`.
* Duck-typed optional attributes of the upstream API objects are `Option`
  fields.  Python truthiness of strings ("" is falsy) is modelled explicitly.
* The relational tables are lists of rows; `query(...).first()` is the first
  list element matching the filter; a per-trip commit appends/replaces in the
  list, a rollback leaves the list unchanged.
-/

namespace App

/-- Truncation of a rational toward zero, the behaviour of Python `int()`. -/
def pyInt (q : ℚ) : Int := if 0 ≤ q then ⌊q⌋ else ⌈q⌉

/-- Python `round(x)`: round half to even. -/
def roundHalfEven (q : ℚ) : Int :=
  let f := ⌊q⌋
  let frac := q - f
  if frac < 1/2 then f
  else if 1/2 < frac then f + 1
  else if f % 2 = 0 then f else f + 1

/-- Python `round(x, 2)` on the exact-rational model. -/
def pyRound2 (q : ℚ) : ℚ := (roundHalfEven (q * 100) : ℚ) / 100

/-- `KM_TO_MI = 0.621371` (app/fetcher.py, app/main.py). -/
def KM_TO_MI : ℚ := 0.621371

/-- Fields a backfill must never overwrite (app/fetcher.py line 83):
`PROTECTED_FIELDS = set of start_address and end_address`.  The `new_data`
dictionary built by the reconciliation never contains these two keys, so the
per-key `setattr` loop updates every `new_data` field and only those. -/
def PROTECTED_FIELDS : List String := ["start_address", "end_address"]

/-! ## Data model (app/database.py) -/

/-- A row of the `readings` table.  `add_reading` only ever inserts rows with
a present odometer, so `odometer` is stored plain. -/
structure VehicleReading where
  timestamp : Int
  vin : String
  odometer : ℚ
  fuel_level : Option ℚ
  total_range : Option ℚ
  daily_distance : Option ℚ
  daily_fuel_consumed : Option ℚ
deriving Repr, DecidableEq

/-- The columns of a `trips` row that are exactly the keys of the `new_data`
dictionary built by `_fetch_and_process_trip_summaries` (fetcher.py 117-151).
All of them are nullable in the schema; the CSV import path leaves most of
them NULL. -/
structure TripData where
  end_timestamp : Int
  start_lat : Option ℚ
  start_lon : Option ℚ
  end_lat : Option ℚ
  end_lon : Option ℚ
  distance_km : Option ℚ
  fuel_consumption_l_100km : Option ℚ
  duration_seconds : Option Int
  average_speed_kmh : Option ℚ
  max_speed_kmh : Option ℚ
  countries : Option (List String)
  length_overspeed_km : Option ℚ
  duration_overspeed_seconds : Option Int
  length_highway_km : Option ℚ
  duration_highway_seconds : Option Int
  night_trip : Option Bool
  score_global : Option Int
  score_acceleration : Option Int
  score_braking : Option Int
  score_advice : Option Int
  score_constant_speed : Option Int
  ev_distance_km : Option ℚ
  ev_duration_seconds : Option Int
  hdc_charge_duration_seconds : Option Int
  hdc_charge_distance_km : Option ℚ
  hdc_eco_duration_seconds : Option Int
  hdc_eco_distance_km : Option ℚ
  hdc_power_duration_seconds : Option Int
  hdc_power_distance_km : Option ℚ
  distance_mi : Option ℚ
  mpg : Option ℚ
  mpg_uk : Option ℚ
  average_speed_mph : Option ℚ
  ev_distance_mi : Option ℚ
  route : Option (List (ℚ × ℚ))
deriving Repr, DecidableEq

/-- A row of the `trips` table: the natural key `(vin, start_timestamp)`, the
two protected address columns, and the `new_data` columns. -/
structure Trip where
  id : Nat
  vin : String
  start_timestamp : Int
  start_address : String
  end_address : String
  data : TripData
deriving Repr, DecidableEq

/-! ## Upstream trip objects (pytoyoda, duck-typed) -/

/-- `trip._trip.summary`, when present. -/
structure TripSummary where
  max_speed : Option ℚ
  countries : Option (List String)
  length_overspeed : Option ℚ
  duration_overspeed : Option Int
  length_highway : Option ℚ
  duration_highway : Option Int
  night_trip : Option Bool
deriving Repr, DecidableEq

/-- `trip._trip.scores`, when present. -/
structure TripScores where
  global_ : Option Int
  acceleration : Option Int
  braking : Option Int
  advice : Option Int
  constant_speed : Option Int
deriving Repr, DecidableEq

/-- `trip._trip.hdc`, when present.  Distances are reported in meters. -/
structure TripHdc where
  ev_distance : Option ℚ
  charge_dist : Option ℚ
  eco_dist : Option ℚ
  power_dist : Option ℚ
  ev_time : Option Int
  charge_time : Option Int
  eco_time : Option Int
  power_time : Option Int
deriving Repr, DecidableEq

/-- One externally fetched trip summary as seen by
`_fetch_and_process_trip_summaries`.  `hasCoordinates` models the
`hasattr(trip.locations.start, 'lat')` probe; `raisesError` models an
unexpected exception raised while processing this one trip (the
`except Exception` arm at fetcher.py 182-184). -/
structure RawTrip where
  hasCoordinates : Bool
  start_time : Int
  end_time : Int
  start_lat : ℚ
  start_lon : ℚ
  end_lat : ℚ
  end_lon : ℚ
  distance : Option ℚ
  average_fuel_consumed : Option ℚ
  duration_seconds : ℚ
  ev_distance : Option ℚ
  ev_duration_seconds : ℚ
  score : Option Int
  summary : Option TripSummary
  scores : Option TripScores
  hdc : Option TripHdc
  route : Option (List (ℚ × ℚ))
  raisesError : Bool
deriving Repr, DecidableEq

/-- Step 1 of the reconciliation loop (fetcher.py 91-151): extract and
normalize every `new_data` value from a fetched trip. -/
def buildNewData (fetch_full_route : Bool) (t : RawTrip) : TripData :=
  let distance_km : ℚ := t.distance.getD 0
  let fuel_consumption_l_100km : ℚ := t.average_fuel_consumed.getD 0
  let duration_seconds : ℚ := t.duration_seconds
  let average_speed_kmh : ℚ :=
    if 0 < duration_seconds ∧ 0 < distance_km
    then distance_km / (duration_seconds / 3600) else 0
  let ev_distance_km : Option ℚ :=
    match t.hdc with
    | some h =>
      match h.ev_distance with
      | some d => some (d / 1000)
      | none => t.ev_distance
    | none => t.ev_distance
  let hdc_charge_dist_km : Option ℚ := (t.hdc.bind TripHdc.charge_dist).map (· / 1000)
  let hdc_eco_dist_km : Option ℚ := (t.hdc.bind TripHdc.eco_dist).map (· / 1000)
  let hdc_power_dist_km : Option ℚ := (t.hdc.bind TripHdc.power_dist).map (· / 1000)
  let length_overspeed_km : Option ℚ := (t.summary.bind TripSummary.length_overspeed).map (· / 1000)
  let length_highway_km : Option ℚ := (t.summary.bind TripSummary.length_highway).map (· / 1000)
  let route_data : Option (List (ℚ × ℚ)) :=
    if fetch_full_route then
      match t.route with
      | some ps => if ps.isEmpty then none else some ps
      | none => none
    else none
  { end_timestamp := t.end_time
    start_lat := some t.start_lat
    start_lon := some t.start_lon
    end_lat := some t.end_lat
    end_lon := some t.end_lon
    distance_km := some distance_km
    fuel_consumption_l_100km := some fuel_consumption_l_100km
    duration_seconds := some (pyInt duration_seconds)
    average_speed_kmh := some average_speed_kmh
    max_speed_kmh := t.summary.bind TripSummary.max_speed
    countries := t.summary.bind TripSummary.countries
    length_overspeed_km := length_overspeed_km
    duration_overspeed_seconds := t.summary.bind TripSummary.duration_overspeed
    length_highway_km := length_highway_km
    duration_highway_seconds := t.summary.bind TripSummary.duration_highway
    night_trip := t.summary.bind TripSummary.night_trip
    score_global := match t.scores with
      | some s => s.global_
      | none => t.score
    score_acceleration := t.scores.bind TripScores.acceleration
    score_braking := t.scores.bind TripScores.braking
    score_advice := t.scores.bind TripScores.advice
    score_constant_speed := t.scores.bind TripScores.constant_speed
    ev_distance_km := ev_distance_km
    ev_duration_seconds := some (match t.hdc.bind TripHdc.ev_time with
      | some n => n
      | none => pyInt t.ev_duration_seconds)
    hdc_charge_duration_seconds := t.hdc.bind TripHdc.charge_time
    hdc_charge_distance_km := hdc_charge_dist_km
    hdc_eco_duration_seconds := t.hdc.bind TripHdc.eco_time
    hdc_eco_distance_km := hdc_eco_dist_km
    hdc_power_duration_seconds := t.hdc.bind TripHdc.power_time
    hdc_power_distance_km := hdc_power_dist_km
    distance_mi := some (distance_km * KM_TO_MI)
    mpg := some (if 0 < fuel_consumption_l_100km then 235.214 / fuel_consumption_l_100km else 0)
    mpg_uk := some (if 0 < fuel_consumption_l_100km then 282.481 / fuel_consumption_l_100km else 0)
    average_speed_mph := some (average_speed_kmh * KM_TO_MI)
    ev_distance_mi := some (ev_distance_km.getD 0 * KM_TO_MI)
    route := route_data }

/-- `db_session.query(Trip).filter_by(vin=..., start_timestamp=...).first()`. -/
def findExistingTrip (store : List Trip) (vin : String) (ts : Int) : Option Trip :=
  match store with
  | [] => none
  | e :: rest =>
    if e.vin = vin ∧ e.start_timestamp = ts then some e else findExistingTrip rest vin ts

/-- The update arm of the reconciliation (fetcher.py 159-161): every key of
`new_data` is written back unless it is in `PROTECTED_FIELDS`; no `new_data`
key is protected, so the whole `data` block is replaced and the address
columns (and the key columns, absent from `new_data`) are untouched. -/
def applyNewData (e : Trip) (nd : TripData) : Trip := { e with data := nd }

/-- Replace the first `(vin, start_timestamp)` match in the table with its
updated row. -/
def updateFirstMatch (store : List Trip) (vin : String) (ts : Int) (nd : TripData) : List Trip :=
  match store with
  | [] => []
  | e :: rest =>
    if e.vin = vin ∧ e.start_timestamp = ts then applyNewData e nd :: rest
    else e :: updateFirstMatch rest vin ts nd

/-- The evolving state of one reconciliation batch: the `trips` table, the
autoincrement id, the three counters, and the ids handed to
`asyncio.create_task(_reverse_geocode_trip ...)`. -/
structure ReconcileState where
  store : List Trip
  nextId : Nat
  new : Nat
  updated : Nat
  skipped : Nat
  geocodeQueue : List Nat
deriving Repr, DecidableEq

/-- One iteration of the `for trip in all_trips` loop of
`_fetch_and_process_trip_summaries` (fetcher.py 85-184). -/
def processTripSummary (vin : String) (fetch_full_route : Bool)
    (st : ReconcileState) (t : RawTrip) : ReconcileState :=
  if !t.hasCoordinates then
    st
  else if t.raisesError then
    st
  else
    let nd := buildNewData fetch_full_route t
    let ts := t.start_time
    match findExistingTrip st.store vin ts with
    | some _ =>
      { st with
        store := updateFirstMatch st.store vin ts nd
        updated := st.updated + 1 }
    | none =>
      { st with
        store := st.store ++ [{ id := st.nextId, vin := vin, start_timestamp := ts,
                                start_address := "Geocoding...", end_address := "Geocoding...",
                                data := nd }]
        nextId := st.nextId + 1
        new := st.new + 1
        geocodeQueue := st.geocodeQueue ++ [st.nextId] }

/-- `_fetch_and_process_trip_summaries`: process a batch of fetched trips
against the table, starting from zeroed counters. -/
def fetch_and_process_trip_summaries (vin : String) (fetch_full_route : Bool)
    (store : List Trip) (nextId : Nat) (all_trips : List RawTrip) : ReconcileState :=
  all_trips.foldl (processTripSummary vin fetch_full_route)
    { store := store, nextId := nextId, new := 0, updated := 0, skipped := 0, geocodeQueue := [] }

/-! ## Readings and the odometer gate (app/database.py 150-180, app/fetcher.py 327-374) -/

/-- Python truthiness of an optional string: `None` and `""` are falsy. -/
def pyTruthy (o : Option String) : Bool :=
  match o with
  | some s => !(s == "")
  | none => false

/-- `vehicle_info["statistics"]["daily"]` as consumed by `add_reading`. -/
structure DailyStats where
  distance : Option ℚ
  fuel_consumed : Option ℚ
deriving Repr, DecidableEq

/-- The slice of the `vehicle_info` dictionary that `add_reading` reads. -/
structure VehicleData where
  vin : Option String
  odometer : Option ℚ
  fuel_level : Option ℚ
  total_range : Option ℚ
  daily : Option DailyStats
deriving Repr, DecidableEq

/-- `database.add_reading`: build the row, then insert it only when
`reading.vin` is truthy and `reading.odometer is not None`
(database.py 174-178); otherwise the table is left unchanged. -/
def add_reading (readings : List VehicleReading) (vd : VehicleData) (now : Int) :
    List VehicleReading :=
  let daily_stats := vd.daily
  if pyTruthy vd.vin ∧ vd.odometer.isSome then
    readings ++ [{ timestamp := now
                   vin := vd.vin.getD ""
                   odometer := vd.odometer.getD 0
                   fuel_level := vd.fuel_level
                   total_range := vd.total_range
                   daily_distance := daily_stats.bind DailyStats.distance
                   daily_fuel_consumed := daily_stats.bind DailyStats.fuel_consumed }]
  else readings

/-- `database.get_latest_reading`: the row with the greatest timestamp among
the VIN's rows (`order_by(timestamp.desc()).first()`); the earliest-inserted
row wins a timestamp tie. -/
def get_latest_reading (readings : List VehicleReading) (vin : String) :
    Option VehicleReading :=
  (readings.filter (fun r => r.vin == vin)).foldl
    (fun acc r =>
      match acc with
      | none => some r
      | some b => if b.timestamp < r.timestamp then some r else some b)
    none

/-- `database.get_latest_trip_timestamp`: greatest `start_timestamp` among the
VIN's trips, `none` when the VIN has no trips. -/
def get_latest_trip_timestamp (trips : List Trip) (vin : String) : Option Int :=
  (trips.filter (fun t => t.vin == vin)).foldl
    (fun acc t =>
      match acc with
      | none => some t.start_timestamp
      | some b => if b < t.start_timestamp then some t.start_timestamp else some b)
    none

/-- The two persistent tables seen by `_process_vehicle`. -/
structure FetchState where
  readings : List VehicleReading
  trips : List Trip
deriving Repr, DecidableEq

/-- The odometer-gate portion of `_process_vehicle` (fetcher.py 353-374):
given the freshly built `vehicle_info`, decide whether new activity occurred,
persist a `VehicleReading` when it did, and report whether the trip fetch
(`_fetch_and_process_trip_summaries`) was triggered.  The trip fetch itself
is modelled separately by `fetch_and_process_trip_summaries`. -/
def process_vehicle_odometer (st : FetchState) (vin : String) (vd : VehicleData)
    (now : Int) : FetchState × Bool :=
  match vd.odometer with
  | none => (st, false)
  | some new_odometer =>
    let latest_reading := get_latest_reading st.readings vin
    let latest_trip_ts := get_latest_trip_timestamp st.trips vin
    let is_first_run := latest_trip_ts.isNone
    let odometer_changed :=
      match latest_reading with
      | none => true
      | some r => decide (r.odometer < new_odometer)
    if odometer_changed || is_first_run then
      ({ st with readings := add_reading st.readings vd now }, true)
    else
      (st, false)

/-! ## Day-bucketed daily summary (app/main.py 318-403) -/

/-- Calendar day of an instant, `func.date` / `.date()` on the model. -/
def dayOf (ts : Int) : Int := Int.fdiv ts 86400

/-- SQL `SUM` over a nullable rational column: NULLs are ignored, the sum of
no non-NULL values is NULL. -/
def sqlSumQ (l : List (Option ℚ)) : Option ℚ :=
  let vs := l.filterMap id
  if vs.isEmpty then none else some (vs.foldl (· + ·) 0)

/-- SQL `SUM` over a nullable integer column. -/
def sqlSumZ (l : List (Option Int)) : Option Int :=
  let vs := l.filterMap id
  if vs.isEmpty then none else some (vs.foldl (· + ·) 0)

/-- SQL `AVG` over a nullable integer column. -/
def sqlAvgZ (l : List (Option Int)) : Option ℚ :=
  let vs := l.filterMap id
  if vs.isEmpty then none else some ((vs.foldl (· + ·) 0 : ℚ) / vs.length)

/-- SQL `MAX` over a nullable rational column. -/
def sqlMaxQ (l : List (Option ℚ)) : Option ℚ :=
  let vs := l.filterMap id
  match vs with
  | [] => none
  | v :: rest => some (rest.foldl max v)

/-- SQL `MIN` over a nullable integer column (`func.min(start_timestamp)`). -/
def sqlMinZ (l : List (Option Int)) : Option Int :=
  let vs := l.filterMap id
  match vs with
  | [] => none
  | v :: rest => some (rest.foldl min v)

/-- One element of the list returned by the daily-summary endpoint
(main.py 388-401). -/
structure DailySummaryEntry where
  date : Int
  distance_km : ℚ
  fuel_consumption_l_100km : ℚ
  ev_distance_km : ℚ
  ev_duration_seconds : Int
  score_global : Option Int
  duration_seconds : Int
  average_speed_kmh : ℚ
  max_speed_kmh : Option ℚ
deriving Repr, DecidableEq

/-- The per-trip term of the fuel aggregate,
`fuel_consumption_l_100km * distance_km / 100`; NULL when either factor is
NULL. -/
def tripFuelTerm (t : Trip) : Option ℚ :=
  match t.data.fuel_consumption_l_100km, t.data.distance_km with
  | some f, some d => some (f * d / 100)
  | _, _ => none

/-- Aggregate one day bucket and format it (main.py 347-401): the grouped
query row overwrites the zero defaults, NULL aggregates fall back via
`or 0.0`, and the final list entry applies the rounding and guarded
divisions.  A day with no rows keeps the zero defaults. -/
def buildDayEntry (day : Int) (rows : List Trip) : DailySummaryEntry :=
  let distance : ℚ := (sqlSumQ (rows.map (fun t => t.data.distance_km))).getD 0
  let fuel : ℚ := (sqlSumQ (rows.map tripFuelTerm)).getD 0
  let ev_distance : ℚ := (sqlSumQ (rows.map (fun t => t.data.ev_distance_km))).getD 0
  let ev_duration : Int := (sqlSumZ (rows.map (fun t => t.data.ev_duration_seconds))).getD 0
  let score : Option ℚ := sqlAvgZ (rows.map (fun t => t.data.score_global))
  let duration : Int := (sqlSumZ (rows.map (fun t => t.data.duration_seconds))).getD 0
  let max_speed : Option ℚ := sqlMaxQ (rows.map (fun t => t.data.max_speed_kmh))
  { date := day
    distance_km := pyRound2 distance
    fuel_consumption_l_100km :=
      if 0 < fuel ∧ 0 < distance then pyRound2 (fuel / distance * 100) else 0
    ev_distance_km := pyRound2 ev_distance
    ev_duration_seconds := ev_duration
    score_global := score.map roundHalfEven
    duration_seconds := duration
    average_speed_kmh :=
      if 0 < duration ∧ 0 < distance
      then pyRound2 (distance / ((duration : ℚ) / 3600)) else 0
    max_speed_kmh := max_speed }

/-- `func.min(Trip.start_timestamp)` filtered by VIN. -/
def earliestTripTs (store : List Trip) (vin : String) : Option Int :=
  sqlMinZ ((store.filter (fun t => t.vin == vin)).map (fun t => some t.start_timestamp))

/-- The date-range lower bound used both as the query filter and as the first
materialized day (main.py 340-344): the earliest trip instant, clamped from
below by `utcnow - days` when a finite period is requested. -/
def actualStartFilter (earliest : Int) (days : Option Nat) (now : Int) : Int :=
  match days with
  | some d => max earliest (now - (d : Int) * 86400)
  | none => earliest

/-- `get_daily_summary` (main.py 318-403): materialize every calendar day
from the clamped start date through today with zero defaults, overwrite the
days that have aggregated rows, and emit the days in ascending order.
`days = none` is the period `"all"`. -/
def get_daily_summary (store : List Trip) (vin : String) (days : Option Nat)
    (now : Int) : List DailySummaryEntry :=
  let vinTrips := store.filter (fun t => t.vin == vin)
  match earliestTripTs store vin with
  | none => []
  | some earliest =>
    let actual_start := actualStartFilter earliest days now
    let startDay := dayOf actual_start
    let endDay := dayOf now
    let n : Int := endDay - startDay + 1
    let dayList : List Int :=
      if 0 < n then (List.range n.toNat).map (fun (i : Nat) => startDay + (i : Int)) else []
    let filtered := vinTrips.filter (fun t => decide (actual_start ≤ t.start_timestamp))
    dayList.map (fun day =>
      buildDayEntry day (filtered.filter (fun t => dayOf t.start_timestamp == day)))

/-! ## Background geocoding job (app/fetcher.py 27-63) -/

/-- `settings.get('reverse_geocode_enabled', True)`. -/
structure GeoConfig where
  reverse_geocode_enabled : Bool
deriving Repr, DecidableEq

/-- `db.query(Trip).filter(Trip.id == trip_id).first()`. -/
def findTripById (store : List Trip) (tid : Nat) : Option Trip :=
  match store with
  | [] => none
  | t :: rest => if t.id = tid then some t else findTripById rest tid

/-- Write both address columns of the first row with the given id. -/
def setTripAddresses (store : List Trip) (tid : Nat) (sa ea : String) : List Trip :=
  match store with
  | [] => []
  | t :: rest =>
    if t.id = tid then { t with start_address := sa, end_address := ea } :: rest
    else t :: setTripAddresses rest tid sa ea

/-- `_reverse_geocode_trip` run to completion under the single global permit
(`GEOCODE_SEMAPHORE` of size 1): look the trip up, no-op unless its
`start_address` is still the `"Geocoding..."` sentinel, then either write the
raw coordinate strings (geocoding disabled) or the two lookup results with
`"Unknown"` for a failed lookup.  `lookup` is the external rate-limited
Nominatim capability (`None` on failure, per `return_value_on_exception`),
`coordStr` the Python f-string rendering of a coordinate pair, and
`raisesError` an unexpected exception inside the job (the transaction is
rolled back).  The returned flag reports whether an address write was
committed. -/
def reverse_geocode_trip (store : List Trip) (trip_id : Nat) (cfg : GeoConfig)
    (lookup : Option ℚ → Option ℚ → Option String)
    (coordStr : Option ℚ → Option ℚ → String)
    (raisesError : Bool) : List Trip × Bool :=
  match findTripById store trip_id with
  | none => (store, false)
  | some trip =>
    if trip.start_address ≠ "Geocoding..." then (store, false)
    else if raisesError then (store, false)
    else if !cfg.reverse_geocode_enabled then
      (setTripAddresses store trip_id
        (coordStr trip.data.start_lat trip.data.start_lon)
        (coordStr trip.data.end_lat trip.data.end_lon), true)
    else
      let start_address := (lookup trip.data.start_lat trip.data.start_lon).getD "Unknown"
      let end_address := (lookup trip.data.end_lat trip.data.end_lon).getD "Unknown"
      (setTripAddresses store trip_id start_address end_address, true)

/-! ## Credential loading (app/credentials_manager.py 25-71) -/

/-- The parsed content of `credentials.json`. -/
structure CredFileData where
  username : Option String
  password : Option String
deriving Repr, DecidableEq

/-- Everything `load_credentials` consults on one call.  The function reads
these sources afresh on every call (it holds no state of its own), so a call
is a pure function of this record.
`cred_file = none`: the file does not exist; `some none`: it exists but
reading or JSON-decoding raises (the `except` arm); `some (some d)`: it
parses to `d`.  `decrypt` is `security.decrypt_password`, returning `none`
for a missing, empty or undecryptable ciphertext. -/
structure CredSources where
  env_username : Option String
  env_password : Option String
  cred_file : Option (Option CredFileData)
  decrypt : Option String → Option String
  config_username : Option String
  config_password : Option String

/-- The trailing `mytoyota_config.yaml` fallback of `load_credentials`
(credentials_manager.py 64-71). -/
def configFallback (src : CredSources) : Option String × Option String :=
  if pyTruthy src.config_username ∧ pyTruthy src.config_password then
    (src.config_username, src.config_password)
  else (none, none)

/-- `load_credentials` (credentials_manager.py 25-71): environment variables
first, then the encrypted file, then the legacy plaintext config, each source
accepted only when it yields a truthy username and a truthy password. -/
def load_credentials (src : CredSources) : Option String × Option String :=
  if pyTruthy src.env_username ∧ pyTruthy src.env_password then
    (src.env_username, src.env_password)
  else
    match src.cred_file with
    | some (some data) =>
      let username := data.username
      let password := src.decrypt data.password
      if pyTruthy username ∧ pyTruthy password then (username, password)
      else configFallback src
    | some none => configFallback src
    | none => configFallback src

/-- What the encrypted-file source yields on this call: `some (u, p)` when the
file exists, parses, and produces a truthy username and decrypted password,
`none` otherwise. -/
def fileCredentials (src : CredSources) : Option (Option String × Option String) :=
  match src.cred_file with
  | some (some data) =>
    if pyTruthy data.username ∧ pyTruthy (src.decrypt data.password) then
      some (data.username, src.decrypt data.password)
    else none
  | _ => none

/-! ## CSV trip import (app/main.py 762-842) -/

/-- One data row of the uploaded CSV, after the header skip, classified the
way the import loop treats it: fewer than 6 fields (`short`), a field that
raises `ValueError`/`IndexError` while parsing (`malformed`), or a fully
parsed row.  Number and timestamp parsing itself is a Python library
capability outside the embedding. -/
inductive CsvRow where
  | short : CsvRow
  | malformed : CsvRow
  | ok (start_address : String) (start_ts : Int) (end_address : String)
      (end_ts : Int) (distance : ℚ) (fuel : ℚ) : CsvRow
deriving Repr, DecidableEq

/-- The content-based dedup query of the import (main.py 809-814): same VIN,
same addresses, stored distance within ±0.1 km.  The session has
`autoflush=False`, so the query sees only the committed table, never the
rows pending in the current import. -/
def csvDuplicate (store : List Trip) (vin : String) (sa ea : String) (dist : ℚ) : Bool :=
  store.any (fun t =>
    t.vin == vin && t.start_address == sa && t.end_address == ea &&
    (match t.data.distance_km with
     | some d => decide (dist - 1/10 ≤ d) && decide (d ≤ dist + 1/10)
     | none => false))

/-- The row a unique CSV line inserts (main.py 821-830): only the key, the
addresses, `end_timestamp`, distance and fuel are set; every other column is
NULL. -/
def mkCsvTrip (tid : Nat) (vin : String) (sa : String) (sts : Int) (ea : String)
    (ets : Int) (dist fuel : ℚ) : Trip :=
  { id := tid
    vin := vin
    start_timestamp := sts
    start_address := sa
    end_address := ea
    data := { end_timestamp := ets
              start_lat := none, start_lon := none, end_lat := none, end_lon := none
              distance_km := some dist
              fuel_consumption_l_100km := some fuel
              duration_seconds := none, average_speed_kmh := none, max_speed_kmh := none
              countries := none, length_overspeed_km := none
              duration_overspeed_seconds := none, length_highway_km := none
              duration_highway_seconds := none, night_trip := none
              score_global := none, score_acceleration := none, score_braking := none
              score_advice := none, score_constant_speed := none
              ev_distance_km := none, ev_duration_seconds := none
              hdc_charge_duration_seconds := none, hdc_charge_distance_km := none
              hdc_eco_duration_seconds := none, hdc_eco_distance_km := none
              hdc_power_duration_seconds := none, hdc_power_distance_km := none
              distance_mi := none, mpg := none, mpg_uk := none
              average_speed_mph := none, ev_distance_mi := none, route := none } }

/-- One iteration of the CSV import loop over the pending (uncommitted)
inserts and the `imported`/`skipped` counters. -/
def csvImportStep (store : List Trip) (vin : String)
    (acc : List Trip × Nat × Nat × Nat) (row : CsvRow) : List Trip × Nat × Nat × Nat :=
  let (pending, nid, imported, skipped) := acc
  match row with
  | .short => (pending, nid, imported, skipped + 1)
  | .malformed => (pending, nid, imported, skipped + 1)
  | .ok sa sts ea ets dist fuel =>
    if csvDuplicate store vin sa ea dist then (pending, nid, imported, skipped + 1)
    else (pending ++ [mkCsvTrip nid vin sa sts ea ets dist fuel], nid + 1,
          imported + 1, skipped)

/-- `import_trips_from_csv` (main.py 762-842): run the loop accumulating
pending inserts, then commit the whole batch once at the end.  `crash` models
an unexpected exception in the `except Exception` arm raised before that
single commit: the transaction is rolled back (the table is unchanged) and
the endpoint raises HTTP 500 instead of returning counts (`none`). -/
def import_trips_from_csv (store : List Trip) (vin : String) (rows : List CsvRow)
    (nextId : Nat) (crash : Bool) : List Trip × Option (Nat × Nat) :=
  let result := rows.foldl (csvImportStep store vin) ([], nextId, 0, 0)
  if crash then (store, none)
  else (store ++ result.1, some (result.2.2.1, result.2.2.2))

/-- The parsed, non-duplicate rows of the file, in order: the payload that
the import inserts. -/
def csvInsertPayload (store : List Trip) (vin : String) (rows : List CsvRow) :
    List (String × Int × String × Int × ℚ × ℚ) :=
  rows.filterMap (fun row =>
    match row with
    | .ok sa sts ea ets dist fuel =>
      if csvDuplicate store vin sa ea dist then none else some (sa, sts, ea, ets, dist, fuel)
    | _ => none)

/-- The trips a successful import appends, with ids counted off from the
autoincrement position. -/
def csvInsertedTrips (store : List Trip) (vin : String) (rows : List CsvRow)
    (nextId : Nat) : List Trip :=
  ((csvInsertPayload store vin rows).enumFrom nextId).map (fun p =>
    mkCsvTrip p.1 vin p.2.1 p.2.2.1 p.2.2.2.1 p.2.2.2.2.1
      p.2.2.2.2.2.1 p.2.2.2.2.2.2)

/-- The rows the import only counts as skipped: short rows, rows that fail to
parse, and content-duplicates. -/
def csvSkippedCount (store : List Trip) (vin : String) (rows : List CsvRow) : Nat :=
  (rows.filter (fun row =>
    match row with
    | .ok sa _ ea _ dist _ => csvDuplicate store vin sa ea dist
    | _ => true)).length

/-! ## Imperial-units backfill (app/main.py 856-887) -/

/-- The per-trip body of `backfill_imperial_units` (main.py 869-877): mirror
each metric field that is present, and compute the MPG pair with the
`trip.fuel_consumption_l_100km and trip.fuel_consumption_l_100km > 0`
truthiness guard (`None` and `0.0` both fall to `0.0`). -/
def backfillTripImperial (t : Trip) : Trip :=
  let d := t.data
  let d := match d.distance_km with
    | some x => { d with distance_mi := some (x * KM_TO_MI) }
    | none => d
  let d := match d.ev_distance_km with
    | some x => { d with ev_distance_mi := some (x * KM_TO_MI) }
    | none => d
  let d := match d.average_speed_kmh with
    | some x => { d with average_speed_mph := some (x * KM_TO_MI) }
    | none => d
  let mpgPair : ℚ × ℚ :=
    match d.fuel_consumption_l_100km with
    | some f => if 0 < f then (235.214 / f, 282.481 / f) else (0, 0)
    | none => (0, 0)
  { t with data := { d with mpg := some mpgPair.1, mpg_uk := some mpgPair.2 } }

/-- `backfill_imperial_units`: every trip whose `mpg_uk` is still NULL is
updated in place; the rest are untouched. -/
def backfill_imperial_units (trips : List Trip) : List Trip :=
  trips.map (fun t => if t.data.mpg_uk = none then backfillTripImperial t else t)

/-! ## Concrete example inputs for witnesses and counterexamples -/

/-- A stored trip: VIN `"VIN1"`, start instant 1000, already geocoded. -/
def exTrip : Trip := mkCsvTrip 0 "VIN1" "Home" 1000 "Work" 2000 10 5

/-- A reconciliation state whose table already holds `exTrip`. -/
def exReconcileState : ReconcileState :=
  { store := [exTrip], nextId := 1, new := 0, updated := 0, skipped := 0, geocodeQueue := [] }

/-- A fetched trip with the same key `("VIN1", 1000)` as `exTrip`. -/
def exRawTrip : RawTrip :=
  { hasCoordinates := true, start_time := 1000, end_time := 2800
    start_lat := 1, start_lon := 2, end_lat := 3, end_lon := 4
    distance := some 10, average_fuel_consumed := some 6, duration_seconds := 1800
    ev_distance := none, ev_duration_seconds := 0, score := none
    summary := none, scores := none, hdc := none, route := none, raisesError := false }

/-- A fetched trip object with no coordinate data. -/
def exRawTripNoCoords : RawTrip := { exRawTrip with hasCoordinates := false }

/-- A fetched trip whose processing raises an unexpected exception. -/
def exRawTripError : RawTrip := { exRawTrip with start_time := 5000, raisesError := true }

/-- A stored reading with odometer 15000 km for `"VIN1"`. -/
def exReading : VehicleReading :=
  { timestamp := 0, vin := "VIN1", odometer := 15000, fuel_level := some 50
    total_range := none, daily_distance := none, daily_fuel_consumed := none }

/-- Tables holding the 15000 km reading but no trip for the VIN. -/
def exFetchStateNoTrips : FetchState := { readings := [exReading], trips := [] }

/-- Tables holding the 15000 km reading and one stored trip for the VIN. -/
def exFetchStateWithTrip : FetchState := { readings := [exReading], trips := [exTrip] }

/-- A second poll cycle's `vehicle_info` slice: same VIN, unchanged odometer. -/
def exVehicleData : VehicleData :=
  { vin := some "VIN1", odometer := some 15000, fuel_level := some 49
    total_range := none, daily := none }

/-- A `vehicle_info` slice with no VIN. -/
def exVehicleDataNoVin : VehicleData :=
  { vin := none, odometer := some 15000, fuel_level := none, total_range := none, daily := none }

/-- A trip whose start instant lies on calendar day 2. -/
def exFutureTrip : Trip := mkCsvTrip 1 "VIN1" "A" 172900 "B" 173000 5 4

/-- A trip still carrying the pending-geocode sentinel addresses. -/
def exPendingTrip : Trip :=
  { id := 7, vin := "VIN1", start_timestamp := 1000
    start_address := "Geocoding...", end_address := "Geocoding..."
    data := exTrip.data }

/-- A reverse-geocode oracle that always resolves to a fixed street. -/
def exLookup : Option ℚ → Option ℚ → Option String := fun _ _ => some "Some Street 1"

/-- A coordinate formatter in the shape of the Python f-string. -/
def exCoordStr : Option ℚ → Option ℚ → String := fun _ _ => "1, 2"

/-- Credential sources with both environment variables set. -/
def exCredSources : CredSources :=
  { env_username := some "user", env_password := some "pw"
    cred_file := some (some { username := some "fileuser", password := some "cipher" })
    decrypt := fun _ => some "filepw"
    config_username := some "cfguser", config_password := some "cfgpw" }

/-! ## Shared lemmas -/

lemma findExistingTrip_decomp (vin : String) (ts : Int) (nd : TripData) :
    ∀ (store : List Trip) (e : Trip), findExistingTrip store vin ts = some e →
      ∃ pre post, store = pre ++ e :: post ∧
        (∀ x ∈ pre, ¬(x.vin = vin ∧ x.start_timestamp = ts)) ∧
        updateFirstMatch store vin ts nd = pre ++ applyNewData e nd :: post := by
  intro store
  induction store with
  | nil => intro e h; simp [findExistingTrip] at h
  | cons a rest ih =>
    intro e h
    by_cases hc : a.vin = vin ∧ a.start_timestamp = ts
    · rw [findExistingTrip, if_pos hc] at h
      obtain rfl : a = e := by injection h
      exact ⟨[], rest, rfl, by simp, by rw [updateFirstMatch, if_pos hc]; rfl⟩
    · rw [findExistingTrip, if_neg hc] at h
      obtain ⟨pre, post, hs, hpre, hupd⟩ := ih e h
      refine ⟨a :: pre, post, by simp [hs], ?_, ?_⟩
      · intro x hx
        rcases List.mem_cons.mp hx with rfl | hx
        · exact hc
        · exact hpre x hx
      · rw [updateFirstMatch, if_neg hc, hupd]; rfl

/-! ## Claim theorems -/

/-- C1: when a batch trip's key `(VIN, start_timestamp in UTC)` already has a
row in the store, the reconciliation step increments `updated` (not `new`,
not `skipped`), replaces that row's entire `new_data` block with the freshly
normalized values, and leaves the row's `start_address` and `end_address` —
in particular any pre-existing non-sentinel address — exactly unchanged,
along with every other row of the store. -/
theorem reconcile_existing_counts_updated_protects_addresses
    (vin : String) (fr : Bool) (st : ReconcileState) (t : RawTrip) (e : Trip)
    (hc : t.hasCoordinates = true) (he : t.raisesError = false)
    (hfind : findExistingTrip st.store vin t.start_time = some e) :
    ∃ pre post,
      st.store = pre ++ e :: post ∧
      (∀ x ∈ pre, ¬(x.vin = vin ∧ x.start_timestamp = t.start_time)) ∧
      (processTripSummary vin fr st t).store =
        pre ++ ({ e with data := buildNewData fr t } : Trip) :: post ∧
      ({ e with data := buildNewData fr t } : Trip).start_address = e.start_address ∧
      ({ e with data := buildNewData fr t } : Trip).end_address = e.end_address ∧
      (processTripSummary vin fr st t).updated = st.updated + 1 ∧
      (processTripSummary vin fr st t).new = st.new ∧
      (processTripSummary vin fr st t).skipped = st.skipped := by
  obtain ⟨pre, post, hs, hpre, hupd⟩ :=
    findExistingTrip_decomp vin t.start_time (buildNewData fr t) st.store e hfind
  refine ⟨pre, post, hs, hpre, ?_, rfl, rfl, ?_, ?_, ?_⟩ <;>
    simp [processTripSummary, hc, he, hfind, hupd, applyNewData]

/-- Closed witness for C1 at a concrete store and batch trip. -/
theorem reconcile_existing_witness :
    exRawTrip.hasCoordinates = true ∧ exRawTrip.raisesError = false ∧
    findExistingTrip exReconcileState.store "VIN1" exRawTrip.start_time = some exTrip ∧
    ∃ pre post,
      exReconcileState.store = pre ++ exTrip :: post ∧
      (∀ x ∈ pre, ¬(x.vin = "VIN1" ∧ x.start_timestamp = exRawTrip.start_time)) ∧
      (processTripSummary "VIN1" false exReconcileState exRawTrip).store =
        pre ++ ({ exTrip with data := buildNewData false exRawTrip } : Trip) :: post ∧
      ({ exTrip with data := buildNewData false exRawTrip } : Trip).start_address =
        exTrip.start_address ∧
      ({ exTrip with data := buildNewData false exRawTrip } : Trip).end_address =
        exTrip.end_address ∧
      (processTripSummary "VIN1" false exReconcileState exRawTrip).updated =
        exReconcileState.updated + 1 ∧
      (processTripSummary "VIN1" false exReconcileState exRawTrip).new =
        exReconcileState.new ∧
      (processTripSummary "VIN1" false exReconcileState exRawTrip).skipped =
        exReconcileState.skipped :=
  ⟨rfl, rfl, by decide,
    reconcile_existing_counts_updated_protects_addresses "VIN1" false exReconcileState
      exRawTrip exTrip rfl rfl (by decide)⟩

/-- C6: a batch trip lacking coordinate data is skipped without an error: the
step leaves the store and all three counters untouched, and the batch result
is the same as if the trip had not been in the batch at all. -/
theorem reconcile_skips_trip_without_coordinates
    (vin : String) (fr : Bool) (store : List Trip) (nextId : Nat)
    (pre post : List RawTrip) (t : RawTrip) (h : t.hasCoordinates = false) :
    (∀ s : ReconcileState, processTripSummary vin fr s t = s) ∧
    fetch_and_process_trip_summaries vin fr store nextId (pre ++ t :: post) =
      fetch_and_process_trip_summaries vin fr store nextId (pre ++ post) := by
  have hstep : ∀ s : ReconcileState, processTripSummary vin fr s t = s := by
    intro s; simp [processTripSummary, h]
  refine ⟨hstep, ?_⟩
  unfold fetch_and_process_trip_summaries
  rw [List.foldl_append, List.foldl_append, List.foldl_cons, hstep]

/-- Closed witness for C6 at a concrete coordinate-free trip. -/
theorem reconcile_skips_witness :
    exRawTripNoCoords.hasCoordinates = false ∧
    (∀ s : ReconcileState, processTripSummary "VIN1" false s exRawTripNoCoords = s) ∧
    fetch_and_process_trip_summaries "VIN1" false [exTrip] 1
        ([] ++ exRawTripNoCoords :: [exRawTrip]) =
      fetch_and_process_trip_summaries "VIN1" false [exTrip] 1 ([] ++ [exRawTrip]) :=
  ⟨rfl,
    (reconcile_skips_trip_without_coordinates "VIN1" false [exTrip] 1 []
      [exRawTrip] exRawTripNoCoords rfl).1,
    (reconcile_skips_trip_without_coordinates "VIN1" false [exTrip] 1 []
      [exRawTrip] exRawTripNoCoords rfl).2⟩

/-- C7: an exception raised while processing one batch trip is caught: the
step rolls the trip back (store unchanged), counts it in none of
`new`/`updated`/`skipped`, and the rest of the batch is processed exactly as
if the failing trip had not been present. -/
theorem reconcile_exception_rolls_back_and_continues
    (vin : String) (fr : Bool) (store : List Trip) (nextId : Nat)
    (pre post : List RawTrip) (t : RawTrip) (h : t.raisesError = true) :
    (∀ s : ReconcileState, processTripSummary vin fr s t = s) ∧
    fetch_and_process_trip_summaries vin fr store nextId (pre ++ t :: post) =
      fetch_and_process_trip_summaries vin fr store nextId (pre ++ post) := by
  have hstep : ∀ s : ReconcileState, processTripSummary vin fr s t = s := by
    intro s
    by_cases hc : t.hasCoordinates <;> simp [processTripSummary, hc, h]
  refine ⟨hstep, ?_⟩
  unfold fetch_and_process_trip_summaries
  rw [List.foldl_append, List.foldl_append, List.foldl_cons, hstep]

/-- Closed witness for C7 at a concrete failing trip. -/
theorem reconcile_exception_witness :
    exRawTripError.raisesError = true ∧
    (∀ s : ReconcileState, processTripSummary "VIN1" false s exRawTripError = s) ∧
    fetch_and_process_trip_summaries "VIN1" false [exTrip] 1
        ([exRawTrip] ++ exRawTripError :: []) =
      fetch_and_process_trip_summaries "VIN1" false [exTrip] 1 ([exRawTrip] ++ []) :=
  ⟨rfl,
    (reconcile_exception_rolls_back_and_continues "VIN1" false [exTrip] 1 [exRawTrip]
      [] exRawTripError rfl).1,
    (reconcile_exception_rolls_back_and_continues "VIN1" false [exTrip] 1 [exRawTrip]
      [] exRawTripError rfl).2⟩

/-- C5: on both normalization paths — the reconciliation's `new_data` and the
one-off imperial backfill — the imperial mirrors are exactly
`distance_km * 0.621371` (distance and speed mirrors),
`235.214 / l_per_100km` (MPG-US) and `282.481 / l_per_100km` (MPG-UK), and
when the fuel-consumption source is 0 or absent both MPG fields are 0
instead of a division error. -/
theorem imperial_mirrors (fr : Bool) (t : RawTrip) (tr : Trip) :
    (buildNewData fr t).distance_mi =
      (buildNewData fr t).distance_km.map (· * (0.621371 : ℚ)) ∧
    (buildNewData fr t).average_speed_mph =
      (buildNewData fr t).average_speed_kmh.map (· * (0.621371 : ℚ)) ∧
    (buildNewData fr t).ev_distance_mi =
      some ((buildNewData fr t).ev_distance_km.getD 0 * (0.621371 : ℚ)) ∧
    (0 < t.average_fuel_consumed.getD 0 →
      (buildNewData fr t).mpg = some ((235.214 : ℚ) / t.average_fuel_consumed.getD 0) ∧
      (buildNewData fr t).mpg_uk = some ((282.481 : ℚ) / t.average_fuel_consumed.getD 0)) ∧
    (¬ 0 < t.average_fuel_consumed.getD 0 →
      (buildNewData fr t).mpg = some 0 ∧ (buildNewData fr t).mpg_uk = some 0) ∧
    (∀ x, tr.data.distance_km = some x →
      (backfillTripImperial tr).data.distance_mi = some (x * (0.621371 : ℚ))) ∧
    (∀ x, tr.data.average_speed_kmh = some x →
      (backfillTripImperial tr).data.average_speed_mph = some (x * (0.621371 : ℚ))) ∧
    (∀ x, tr.data.ev_distance_km = some x →
      (backfillTripImperial tr).data.ev_distance_mi = some (x * (0.621371 : ℚ))) ∧
    (∀ f, tr.data.fuel_consumption_l_100km = some f → 0 < f →
      (backfillTripImperial tr).data.mpg = some ((235.214 : ℚ) / f) ∧
      (backfillTripImperial tr).data.mpg_uk = some ((282.481 : ℚ) / f)) ∧
    ((tr.data.fuel_consumption_l_100km = none ∨
        tr.data.fuel_consumption_l_100km = some 0) →
      (backfillTripImperial tr).data.mpg = some 0 ∧
      (backfillTripImperial tr).data.mpg_uk = some 0) := by
  refine ⟨?_, ?_, ?_, ?_, ?_, ?_, ?_, ?_, ?_, ?_⟩
  · simp [buildNewData, KM_TO_MI]
  · simp [buildNewData, KM_TO_MI]
  · simp [buildNewData, KM_TO_MI]
  · intro hf; constructor <;> simp [buildNewData, hf]
  · intro hf; constructor <;> simp [buildNewData, hf]
  · intro x hx
    rcases hev : tr.data.ev_distance_km with _ | ev <;>
      rcases hsp : tr.data.average_speed_kmh with _ | sp <;>
        simp [backfillTripImperial, hx, hev, hsp, KM_TO_MI]
  · intro x hx
    rcases hd : tr.data.distance_km with _ | d <;>
      rcases hev : tr.data.ev_distance_km with _ | ev <;>
        simp [backfillTripImperial, hx, hd, hev, KM_TO_MI]
  · intro x hx
    rcases hd : tr.data.distance_km with _ | d <;>
      rcases hsp : tr.data.average_speed_kmh with _ | sp <;>
        simp [backfillTripImperial, hx, hd, hsp, KM_TO_MI]
  · intro f hf hpos
    rcases hd : tr.data.distance_km with _ | d <;>
      rcases hev : tr.data.ev_distance_km with _ | ev <;>
        rcases hsp : tr.data.average_speed_kmh with _ | sp <;>
          simp [backfillTripImperial, hf, hd, hev, hsp, hpos]
  · intro hfz
    rcases hd : tr.data.distance_km with _ | d <;>
      rcases hev : tr.data.ev_distance_km with _ | ev <;>
        rcases hsp : tr.data.average_speed_kmh with _ | sp <;>
          rcases hfz with hf | hf <;>
            simp [backfillTripImperial, hf, hd, hev, hsp]

/-- Closed witness for C5: the mirror identities evaluated at a concrete
fetched trip (fuel 6 L/100km) and a concrete stored trip (fuel 5 L/100km). -/
theorem imperial_mirrors_witness :
    (buildNewData false exRawTrip).distance_mi =
      (buildNewData false exRawTrip).distance_km.map (· * (0.621371 : ℚ)) ∧
    (buildNewData false exRawTrip).mpg = some ((235.214 : ℚ) / 6) ∧
    (buildNewData false exRawTrip).mpg_uk = some ((282.481 : ℚ) / 6) ∧
    (backfillTripImperial exTrip).data.mpg = some ((235.214 : ℚ) / 5) :=
  ⟨(imperial_mirrors false exRawTrip exTrip).1,
    ((imperial_mirrors false exRawTrip exTrip).2.2.2.1 (by decide)).1,
    ((imperial_mirrors false exRawTrip exTrip).2.2.2.1 (by decide)).2,
    ((imperial_mirrors false exRawTrip exTrip).2.2.2.2.2.2.2.2.1 5 rfl (by decide)).1⟩

/-- C2 counterexample: with a stored 15000 km reading but no stored trip for
the VIN, a second cycle observing the same 15000 km both persists a new
`VehicleReading` and triggers the trip fetch — the `is_first_run` disjunct
(`not latest_trip_ts`, fetcher.py 361) fires even though this is neither the
first reading nor an odometer increase, so the claim's `if and only if` and
its 15000-km scenario fail on this input. -/
theorem odometer_gate_counterexample :
    (process_vehicle_odometer exFetchStateNoTrips "VIN1" exVehicleData 100).2 = true ∧
    (process_vehicle_odometer exFetchStateNoTrips "VIN1" exVehicleData 100).1.readings.length =
      exFetchStateNoTrips.readings.length + 1 ∧
    get_latest_reading exFetchStateNoTrips.readings "VIN1" = some exReading ∧
    exReading.odometer = 15000 ∧
    exVehicleData.odometer = some 15000 := by
  refine ⟨?_, ?_, ?_, rfl, rfl⟩ <;> decide

/-- C2 amended: with the odometer available, a `VehicleReading` is persisted
and the trip fetch is triggered if and only if this is the very first reading
for the VIN, or the fresh odometer value exceeds the last stored reading, or
no trip is stored for the VIN (`is_first_run`); when not triggered both
tables are exactly unchanged, so a repeated 15000 km odometer produces zero
new rows and no fetch provided some trip is stored for the VIN. -/
theorem odometer_gate_amended
    (st : FetchState) (vin : String) (vd : VehicleData) (now : Int) (odo : ℚ)
    (hvin : vd.vin = some vin) (hv : vin ≠ "") (hodo : vd.odometer = some odo) :
    ((process_vehicle_odometer st vin vd now).2 = true ↔
      (get_latest_reading st.readings vin = none ∨
        (∃ b, get_latest_reading st.readings vin = some b ∧ b.odometer < odo) ∨
        get_latest_trip_timestamp st.trips vin = none)) ∧
    ((process_vehicle_odometer st vin vd now).2 = true →
      (process_vehicle_odometer st vin vd now).1.readings.length =
          st.readings.length + 1 ∧
      (process_vehicle_odometer st vin vd now).1.trips = st.trips) ∧
    ((process_vehicle_odometer st vin vd now).2 = false →
      (process_vehicle_odometer st vin vd now).1 = st) := by
  have hadd : add_reading st.readings vd now ≠ [] →
      (add_reading st.readings vd now).length = st.readings.length + 1 := by
    intro _
    have htr : pyTruthy vd.vin = true := by simp [pyTruthy, hvin, hv]
    simp [add_reading, htr, hodo]
  rcases hlr : get_latest_reading st.readings vin with _ | b <;>
    rcases hlt : get_latest_trip_timestamp st.trips vin with _ | ts
  · refine ⟨by simp [process_vehicle_odometer, hodo, hlr, hlt], ?_, ?_⟩
    · intro _
      constructor
      · simp [process_vehicle_odometer, hodo, hlr, hlt]
        exact hadd (by simp [add_reading, pyTruthy, hvin, hv, hodo])
      · simp [process_vehicle_odometer, hodo, hlr, hlt]
    · intro habs
      simp [process_vehicle_odometer, hodo, hlr, hlt] at habs
  · refine ⟨by simp [process_vehicle_odometer, hodo, hlr, hlt], ?_, ?_⟩
    · intro _
      constructor
      · simp [process_vehicle_odometer, hodo, hlr, hlt]
        exact hadd (by simp [add_reading, pyTruthy, hvin, hv, hodo])
      · simp [process_vehicle_odometer, hodo, hlr, hlt]
    · intro habs
      simp [process_vehicle_odometer, hodo, hlr, hlt] at habs
  · refine ⟨by simp [process_vehicle_odometer, hodo, hlr, hlt], ?_, ?_⟩
    · intro _
      constructor
      · simp [process_vehicle_odometer, hodo, hlr, hlt]
        exact hadd (by simp [add_reading, pyTruthy, hvin, hv, hodo])
      · simp [process_vehicle_odometer, hodo, hlr, hlt]
    · intro habs
      simp [process_vehicle_odometer, hodo, hlr, hlt] at habs
  · by_cases hcmp : b.odometer < odo
    · refine ⟨by simp [process_vehicle_odometer, hodo, hlr, hlt, hcmp], ?_, ?_⟩
      · intro _
        constructor
        · simp [process_vehicle_odometer, hodo, hlr, hlt, hcmp]
          exact hadd (by simp [add_reading, pyTruthy, hvin, hv, hodo])
        · simp [process_vehicle_odometer, hodo, hlr, hlt, hcmp]
      · intro habs
        simp [process_vehicle_odometer, hodo, hlr, hlt, hcmp] at habs
    · refine ⟨by simp [process_vehicle_odometer, hodo, hlr, hlt, hcmp], ?_, ?_⟩
      · intro habs
        simp [process_vehicle_odometer, hodo, hlr, hlt, hcmp] at habs
      · intro _
        simp [process_vehicle_odometer, hodo, hlr, hlt, hcmp]

/-- Closed witness for the amended C2: the 15000 km / 15000 km scenario with
a stored trip for the VIN produces no fetch and leaves the tables unchanged. -/
theorem odometer_gate_amended_witness :
    (process_vehicle_odometer exFetchStateWithTrip "VIN1" exVehicleData 100).2 = false ∧
    (process_vehicle_odometer exFetchStateWithTrip "VIN1" exVehicleData 100).1 =
      exFetchStateWithTrip := by
  have h := odometer_gate_amended exFetchStateWithTrip "VIN1" exVehicleData 100 15000
    rfl (by decide) rfl
  have hfalse : (process_vehicle_odometer exFetchStateWithTrip "VIN1" exVehicleData 100).2 =
      false := by
    rcases hb : (process_vehicle_odometer exFetchStateWithTrip "VIN1" exVehicleData 100).2
    · rfl
    · exfalso
      have := h.1.mp hb
      revert this
      decide
  exact ⟨hfalse, h.2.2 hfalse⟩

/-- C10: `add_reading` inserts nothing — and raises nothing — when the VIN or
the odometer is missing from the input dictionary, leaving the readings table
exactly unchanged; and whenever it does change the table, both the VIN and
the odometer were present. -/
theorem add_reading_requires_vin_and_odometer
    (readings : List VehicleReading) (vd : VehicleData) (now : Int) :
    ((vd.vin = none ∨ vd.odometer = none) → add_reading readings vd now = readings) ∧
    (add_reading readings vd now ≠ readings →
      vd.vin.isSome = true ∧ vd.odometer.isSome = true) := by
  constructor
  · rintro (h | h) <;> simp [add_reading, pyTruthy, h]
  · intro hne
    by_cases hc : pyTruthy vd.vin ∧ vd.odometer.isSome
    · rcases hc with ⟨h1, h2⟩
      refine ⟨?_, h2⟩
      rcases hv : vd.vin with _ | s
      · rw [hv] at h1; simp [pyTruthy] at h1
      · simp
    · rw [add_reading, if_neg hc] at hne
      exact absurd rfl hne

/-- Closed witness for C10: a dictionary with no VIN inserts nothing. -/
theorem add_reading_witness :
    exVehicleDataNoVin.vin = none ∧
    add_reading [exReading] exVehicleDataNoVin 100 = [exReading] :=
  ⟨rfl, (add_reading_requires_vin_and_odometer [exReading] exVehicleDataNoVin 100).1
    (Or.inl rfl)⟩

lemma buildDayEntry_date (day : Int) (rows : List Trip) :
    (buildDayEntry day rows).date = day := rfl

lemma pyRound2_zero : pyRound2 0 = 0 := by
  have h : roundHalfEven (0 * 100) = 0 := by
    unfold roundHalfEven
    norm_num
  unfold pyRound2
  rw [h]
  norm_num

lemma buildDayEntry_nil (day : Int) :
    buildDayEntry day [] =
      { date := day, distance_km := 0, fuel_consumption_l_100km := 0,
        ev_distance_km := 0, ev_duration_seconds := 0, score_global := none,
        duration_seconds := 0, average_speed_kmh := 0, max_speed_kmh := none } := by
  have h0 : pyRound2 0 = 0 := pyRound2_zero
  simp [buildDayEntry, sqlSumQ, sqlSumZ, sqlAvgZ, sqlMaxQ, h0]

/-- C3 counterexample: with a single stored trip two calendar days in the
future of `utcnow`, the clamped start day is day 2 while the end day is day
0, so the claim's entry count `(end_date - start_date_clamped).days + 1`
equals `-1`, yet the endpoint returns the empty list (0 entries). -/
theorem daily_summary_counterexample :
    earliestTripTs [exFutureTrip] "VIN1" = some 172900 ∧
    dayOf 0 - dayOf (actualStartFilter 172900 (some 30) 0) + 1 = -1 ∧
    get_daily_summary [exFutureTrip] "VIN1" (some 30) 0 = [] ∧
    ((get_daily_summary [exFutureTrip] "VIN1" (some 30) 0).length : Int) ≠
      dayOf 0 - dayOf (actualStartFilter 172900 (some 30) 0) + 1 := by
  refine ⟨by decide, by decide, by decide, by decide⟩

/-- C3 amended: for a VIN with at least one trip, the day-bucketed summary
returns exactly `max 0 ((end_date - start_date_clamped_to_earliest_trip).days
+ 1)` entries (the `Int.toNat` of the signed count), one per calendar day
from the clamped start day through today in strictly ascending date order,
and every returned day on which the VIN has no trips at all carries
zero-valued distance, fuel, EV distance, EV duration and duration fields. -/
theorem daily_summary_gapfree
    (store : List Trip) (vin : String) (days : Option Nat) (now : Int) (earliest : Int)
    (h : earliestTripTs store vin = some earliest) :
    (get_daily_summary store vin days now).map DailySummaryEntry.date =
      (List.range (dayOf now - dayOf (actualStartFilter earliest days now) + 1).toNat).map
        (fun (i : Nat) => dayOf (actualStartFilter earliest days now) + (i : Int)) ∧
    (get_daily_summary store vin days now).length =
      (dayOf now - dayOf (actualStartFilter earliest days now) + 1).toNat ∧
    List.Pairwise (fun a b => a.date < b.date) (get_daily_summary store vin days now) ∧
    ∀ entry ∈ get_daily_summary store vin days now,
      (∀ t ∈ store, t.vin = vin → dayOf t.start_timestamp ≠ entry.date) →
      entry.distance_km = 0 ∧ entry.fuel_consumption_l_100km = 0 ∧
      entry.ev_distance_km = 0 ∧ entry.ev_duration_seconds = 0 ∧
      entry.duration_seconds = 0 := by
  have hdates : (get_daily_summary store vin days now).map DailySummaryEntry.date =
      (List.range (dayOf now - dayOf (actualStartFilter earliest days now) + 1).toNat).map
        (fun (i : Nat) => dayOf (actualStartFilter earliest days now) + (i : Int)) := by
    simp only [get_daily_summary, h]
    by_cases hn : 0 < dayOf now - dayOf (actualStartFilter earliest days now) + 1
    · rw [if_pos hn, List.map_map, List.map_map]
      exact List.map_congr_left (fun i _ => buildDayEntry_date _ _)
    · rw [if_neg hn, Int.toNat_of_nonpos (by omega)]
      simp
  refine ⟨hdates, ?_, ?_, ?_⟩
  · have hlen := congrArg List.length hdates
    rwa [List.length_map, List.length_map, List.length_range] at hlen
  · have hpair : List.Pairwise (· < ·)
        ((get_daily_summary store vin days now).map DailySummaryEntry.date) := by
      rw [hdates, List.pairwise_map]
      refine (List.pairwise_lt_range _).imp ?_
      intro i j hij
      have hij' : (i : Int) < (j : Int) := by exact_mod_cast hij
      omega
    rw [List.pairwise_map] at hpair
    exact hpair
  · intro entry hmem hno
    simp only [get_daily_summary, h, List.mem_map] at hmem
    obtain ⟨day, hday, hentry⟩ := hmem
    have hrows : ((store.filter (fun t => t.vin == vin)).filter
          (fun t => decide (actualStartFilter earliest days now ≤ t.start_timestamp))).filter
        (fun t => dayOf t.start_timestamp == day) = [] := by
      rw [List.filter_eq_nil_iff]
      intro t ht hdayeq
      have ht2 := List.mem_filter.mp ht
      have ht3 := List.mem_filter.mp ht2.1
      have hvin : t.vin = vin := by
        have := ht3.2
        simpa using this
      have hd : dayOf t.start_timestamp = day := by
        simpa using hdayeq
      have hdate : entry.date = day := by rw [← hentry]; exact buildDayEntry_date _ _
      exact hno t ht3.1 hvin (by rw [hd, hdate])
    rw [← hentry, hrows, buildDayEntry_nil]
    exact ⟨rfl, rfl, rfl, rfl, rfl⟩

/-- Closed witness for the amended C3: one trip on day 0, polled on day 2 with
a 30-day window, yields the three days 0, 1, 2 in order. -/
theorem daily_summary_gapfree_witness :
    earliestTripTs [exTrip] "VIN1" = some 1000 ∧
    (get_daily_summary [exTrip] "VIN1" (some 30) 172800).map DailySummaryEntry.date =
      (List.range (dayOf 172800 - dayOf (actualStartFilter 1000 (some 30) 172800) + 1).toNat).map
        (fun (i : Nat) => dayOf (actualStartFilter 1000 (some 30) 172800) + (i : Int)) ∧
    (get_daily_summary [exTrip] "VIN1" (some 30) 172800).length =
      (dayOf 172800 - dayOf (actualStartFilter 1000 (some 30) 172800) + 1).toNat ∧
    List.Pairwise (fun a b => a.date < b.date)
      (get_daily_summary [exTrip] "VIN1" (some 30) 172800) :=
  ⟨by decide,
    (daily_summary_gapfree [exTrip] "VIN1" (some 30) 172800 1000 (by decide)).1,
    (daily_summary_gapfree [exTrip] "VIN1" (some 30) 172800 1000 (by decide)).2.1,
    (daily_summary_gapfree [exTrip] "VIN1" (some 30) 172800 1000 (by decide)).2.2.1⟩

lemma findTripById_setTripAddresses (tid : Nat) (sa ea : String) :
    ∀ (store : List Trip) (t : Trip), findTripById store tid = some t →
      findTripById (setTripAddresses store tid sa ea) tid =
        some { t with start_address := sa, end_address := ea } := by
  intro store
  induction store with
  | nil => intro t ht; simp [findTripById] at ht
  | cons a rest ih =>
    intro t ht
    by_cases hid : a.id = tid
    · rw [findTripById, if_pos hid] at ht
      obtain rfl : a = t := by injection ht
      rw [setTripAddresses, if_pos hid, findTripById, if_pos hid]
    · rw [findTripById, if_neg hid] at ht
      rw [setTripAddresses, if_neg hid, findTripById, if_neg hid]
      exact ih t ht

/-- C4: a queued geocoding job re-checks the pending sentinel before writing,
so two serialized runs on the same trip id perform at most one successful
address write: whenever the first run writes (given that neither the lookup
results nor the raw coordinate string can be the sentinel itself), the second
run observes a non-sentinel address, no-ops, and leaves the store unchanged. -/
theorem geocode_at_most_one_write
    (store : List Trip) (tid : Nat) (cfg1 cfg2 : GeoConfig)
    (l1 l2 : Option ℚ → Option ℚ → Option String)
    (c1 c2 : Option ℚ → Option ℚ → String) (e1 e2 : Bool)
    (hl : ∀ a b s, l1 a b = some s → s ≠ "Geocoding...")
    (hc : ∀ a b, c1 a b ≠ "Geocoding...") :
    ((reverse_geocode_trip store tid cfg1 l1 c1 e1).2 = true →
      reverse_geocode_trip (reverse_geocode_trip store tid cfg1 l1 c1 e1).1 tid cfg2 l2 c2 e2 =
        ((reverse_geocode_trip store tid cfg1 l1 c1 e1).1, false)) ∧
    ¬((reverse_geocode_trip store tid cfg1 l1 c1 e1).2 = true ∧
      (reverse_geocode_trip (reverse_geocode_trip store tid cfg1 l1 c1 e1).1 tid cfg2 l2 c2
          e2).2 = true) := by
  have key : (reverse_geocode_trip store tid cfg1 l1 c1 e1).2 = true →
      reverse_geocode_trip (reverse_geocode_trip store tid cfg1 l1 c1 e1).1 tid cfg2 l2 c2 e2 =
        ((reverse_geocode_trip store tid cfg1 l1 c1 e1).1, false) := by
    intro hw
    rcases hfind : findTripById store tid with _ | t
    · simp [reverse_geocode_trip, hfind] at hw
    · by_cases hpend : t.start_address ≠ "Geocoding..."
      · simp only [reverse_geocode_trip, hfind] at hw
        rw [if_pos hpend] at hw
        simp at hw
      · by_cases he1 : e1 = true
        · simp only [reverse_geocode_trip, hfind] at hw
          rw [if_neg hpend] at hw
          simp [he1] at hw
        · by_cases hen : cfg1.reverse_geocode_enabled = true
          · have hsa : (l1 t.data.start_lat t.data.start_lon).getD "Unknown" ≠
                "Geocoding..." := by
              rcases hl1 : l1 t.data.start_lat t.data.start_lon with _ | s
              · simp
              · simpa using hl t.data.start_lat t.data.start_lon s hl1
            have hres : reverse_geocode_trip store tid cfg1 l1 c1 e1 =
                (setTripAddresses store tid
                  ((l1 t.data.start_lat t.data.start_lon).getD "Unknown")
                  ((l1 t.data.end_lat t.data.end_lon).getD "Unknown"), true) := by
              simp only [reverse_geocode_trip, hfind]
              rw [if_neg hpend]
              simp [he1, hen]
            have hfind2 := findTripById_setTripAddresses tid
              ((l1 t.data.start_lat t.data.start_lon).getD "Unknown")
              ((l1 t.data.end_lat t.data.end_lon).getD "Unknown") store t hfind
            have hcond : ({ t with
                start_address := (l1 t.data.start_lat t.data.start_lon).getD "Unknown",
                end_address := (l1 t.data.end_lat t.data.end_lon).getD "Unknown" } : Trip).start_address ≠
                "Geocoding..." := hsa
            rw [hres]
            simp only [reverse_geocode_trip, hfind2]
            rw [if_pos hcond]
          · have hres : reverse_geocode_trip store tid cfg1 l1 c1 e1 =
                (setTripAddresses store tid
                  (c1 t.data.start_lat t.data.start_lon)
                  (c1 t.data.end_lat t.data.end_lon), true) := by
              simp only [reverse_geocode_trip, hfind]
              rw [if_neg hpend]
              simp [he1, hen]
            have hfind2 := findTripById_setTripAddresses tid
              (c1 t.data.start_lat t.data.start_lon)
              (c1 t.data.end_lat t.data.end_lon) store t hfind
            have hcond : ({ t with
                start_address := c1 t.data.start_lat t.data.start_lon,
                end_address := c1 t.data.end_lat t.data.end_lon } : Trip).start_address ≠
                "Geocoding..." := hc t.data.start_lat t.data.start_lon
            rw [hres]
            simp only [reverse_geocode_trip, hfind2]
            rw [if_pos hcond]
  refine ⟨key, ?_⟩
  rintro ⟨hw1, hw2⟩
  rw [key hw1] at hw2
  simp at hw2

/-- Closed witness for C4: a pending trip, a lookup that resolves to a fixed
street, two serialized runs — the second run no-ops. -/
theorem geocode_at_most_one_write_witness :
    (reverse_geocode_trip [exPendingTrip] 7
        { reverse_geocode_enabled := true } exLookup exCoordStr false).2 = true ∧
    reverse_geocode_trip
        (reverse_geocode_trip [exPendingTrip] 7
          { reverse_geocode_enabled := true } exLookup exCoordStr false).1 7
        { reverse_geocode_enabled := true } exLookup exCoordStr false =
      ((reverse_geocode_trip [exPendingTrip] 7
          { reverse_geocode_enabled := true } exLookup exCoordStr false).1, false) := by
  have h := geocode_at_most_one_write [exPendingTrip] 7
    { reverse_geocode_enabled := true } { reverse_geocode_enabled := true }
    exLookup exLookup exCoordStr exCoordStr false false
    (by intro a b s hs; simp [exLookup] at hs; simp [← hs])
    (by intro a b; simp [exCoordStr])
  have hw : (reverse_geocode_trip [exPendingTrip] 7
      { reverse_geocode_enabled := true } exLookup exCoordStr false).2 = true := by decide
  exact ⟨hw, h.1 hw⟩

/-- C8: one call to `load_credentials` selects its result with strict
priority environment variables > encrypted local store > legacy plaintext
config: the environment pair is returned whenever both variables are truthy;
otherwise the file source is returned whenever it yields both a truthy
username and a truthy decrypted password; otherwise the config pair is
returned when both its entries are truthy; otherwise `(none, none)`.  The
function consults only the `CredSources` snapshot passed for the current
call — it holds no cache — so each call re-reads the live sources. -/
theorem load_credentials_priority (src : CredSources) :
    ((pyTruthy src.env_username ∧ pyTruthy src.env_password) →
      load_credentials src = (src.env_username, src.env_password)) ∧
    (¬(pyTruthy src.env_username ∧ pyTruthy src.env_password) →
      ∀ p, fileCredentials src = some p → load_credentials src = p) ∧
    (¬(pyTruthy src.env_username ∧ pyTruthy src.env_password) →
      fileCredentials src = none →
      (pyTruthy src.config_username ∧ pyTruthy src.config_password) →
      load_credentials src = (src.config_username, src.config_password)) ∧
    (¬(pyTruthy src.env_username ∧ pyTruthy src.env_password) →
      fileCredentials src = none →
      ¬(pyTruthy src.config_username ∧ pyTruthy src.config_password) →
      load_credentials src = (none, none)) := by
  refine ⟨?_, ?_, ?_, ?_⟩
  · intro henv
    rw [load_credentials, if_pos henv]
  · intro henv p hp
    rw [load_credentials, if_neg henv]
    rcases hf : src.cred_file with _ | d
    · simp only [fileCredentials, hf] at hp
      exact absurd hp (by simp)
    · rcases d with _ | data
      · simp only [fileCredentials, hf] at hp
        exact absurd hp (by simp)
      · simp only [hf]
        simp only [fileCredentials, hf] at hp
        by_cases hok : pyTruthy data.username ∧ pyTruthy (src.decrypt data.password)
        · rw [if_pos hok] at hp ⊢
          injection hp
        · rw [if_neg hok] at hp
          exact absurd hp (by simp)
  · intro henv hfile hcfg
    rw [load_credentials, if_neg henv]
    rcases hf : src.cred_file with _ | d
    · simp only [hf]
      rw [configFallback, if_pos hcfg]
    · rcases d with _ | data
      · simp only [hf]
        rw [configFallback, if_pos hcfg]
      · simp only [fileCredentials, hf] at hfile
        simp only [hf]
        by_cases hok : pyTruthy data.username ∧ pyTruthy (src.decrypt data.password)
        · rw [if_pos hok] at hfile
          exact absurd hfile (by simp)
        · rw [if_neg hok, configFallback, if_pos hcfg]
  · intro henv hfile hcfg
    rw [load_credentials, if_neg henv]
    rcases hf : src.cred_file with _ | d
    · simp only [hf]
      rw [configFallback, if_neg hcfg]
    · rcases d with _ | data
      · simp only [hf]
        rw [configFallback, if_neg hcfg]
      · simp only [fileCredentials, hf] at hfile
        simp only [hf]
        by_cases hok : pyTruthy data.username ∧ pyTruthy (src.decrypt data.password)
        · rw [if_pos hok] at hfile
          exact absurd hfile (by simp)
        · rw [if_neg hok, configFallback, if_neg hcfg]

/-- Closed witness for C8: with both environment variables set, the call
returns them, ignoring the (also populated) file and config sources. -/
theorem load_credentials_priority_witness :
    load_credentials exCredSources = (some "user", some "pw") :=
  (load_credentials_priority exCredSources).1 ⟨rfl, rfl⟩

lemma csvImport_foldl (store : List Trip) (vin : String) :
    ∀ (rows : List CsvRow) (pending : List Trip) (nid imported skipped : Nat),
      rows.foldl (csvImportStep store vin) (pending, nid, imported, skipped) =
        (pending ++ csvInsertedTrips store vin rows nid,
          nid + (csvInsertPayload store vin rows).length,
          imported + (csvInsertPayload store vin rows).length,
          skipped + csvSkippedCount store vin rows) := by
  intro rows
  induction rows with
  | nil =>
    intro pending nid imported skipped
    simp [csvInsertedTrips, csvInsertPayload, csvSkippedCount, List.enumFrom]
  | cons r rest ih =>
    intro pending nid imported skipped
    cases r with
    | short =>
      rw [List.foldl_cons]
      have hstep : csvImportStep store vin (pending, nid, imported, skipped) .short =
          (pending, nid, imported, skipped + 1) := rfl
      rw [hstep, ih]
      simp [csvInsertedTrips, csvInsertPayload, csvSkippedCount, List.filterMap_cons,
        List.filter_cons]
      omega
    | malformed =>
      rw [List.foldl_cons]
      have hstep : csvImportStep store vin (pending, nid, imported, skipped) .malformed =
          (pending, nid, imported, skipped + 1) := rfl
      rw [hstep, ih]
      simp [csvInsertedTrips, csvInsertPayload, csvSkippedCount, List.filterMap_cons,
        List.filter_cons]
      omega
    | ok sa sts ea ets dist fuel =>
      rw [List.foldl_cons]
      by_cases hdup : csvDuplicate store vin sa ea dist = true
      · have hstep : csvImportStep store vin (pending, nid, imported, skipped)
            (.ok sa sts ea ets dist fuel) = (pending, nid, imported, skipped + 1) := by
          simp [csvImportStep, hdup]
        rw [hstep, ih]
        simp [csvInsertedTrips, csvInsertPayload, csvSkippedCount, List.filterMap_cons,
          List.filter_cons, hdup]
        omega
      · have hstep : csvImportStep store vin (pending, nid, imported, skipped)
            (.ok sa sts ea ets dist fuel) =
            (pending ++ [mkCsvTrip nid vin sa sts ea ets dist fuel], nid + 1,
              imported + 1, skipped) := by
          simp [csvImportStep, hdup]
        rw [hstep, ih]
        simp [csvInsertedTrips, csvInsertPayload, csvSkippedCount, List.filterMap_cons,
          List.filter_cons, hdup, List.enumFrom]
        omega

/-- C9: the CSV import is all-or-nothing at batch level: an unexpected
exception before the single final commit rolls the whole transaction back —
the trips table is returned unchanged and HTTP 500 (`none`) is raised —
while a successful run appends, in one commit, exactly the parsed
non-duplicate rows (ids counted off consecutively) and reports them as
`imported`, with short (< 6 fields), unparseable and duplicate rows merely
counted in `skipped` without aborting the batch; unlike the API
reconciliation path, no per-row commit occurs. -/
theorem import_trips_from_csv_atomic
    (store : List Trip) (vin : String) (rows : List CsvRow) (nextId : Nat) :
    import_trips_from_csv store vin rows nextId true = (store, none) ∧
    (import_trips_from_csv store vin rows nextId false).1 =
      store ++ csvInsertedTrips store vin rows nextId ∧
    (import_trips_from_csv store vin rows nextId false).2 =
      some ((csvInsertPayload store vin rows).length,
        csvSkippedCount store vin rows) := by
  have hfold := csvImport_foldl store vin rows [] nextId 0 0
  refine ⟨by simp [import_trips_from_csv], ?_, ?_⟩ <;>
  · unfold import_trips_from_csv
    rw [hfold]
    simp

end App
